import Mathlib

/-!
Verification of the IPv4 Address Conflict Detection (ACD) engine of
`src/components/lwip/lwip/src/core/ipv4/acd.c` (an lwIP ACD module with
EtherNet/IP diagnostic-capture extensions).

The shallow embedding below translates the per-context state machine of
`acd.c` into pure Lean functions.  One `struct acd` is an `Acd` record; the
`acd_tmr` loop body for a single context is `acd_tmr_step`; the
`acd_arp_reply` loop body for a single context is `acd_arp_reply_ctx`.
Outbound effects (ARP probe/announce sends, conflict-callback invocations,
diagnostic-sink captures) are returned as an ordered event list, in the
order the corresponding C calls execute.  The pseudo-random jitter source
is passed in as an oracle `rnd : Nat → Nat` standing for the value of
`LWIP_ACD_RAND(netif, acd)` as a function of `acd->sent_num` (the default
`LWIP_ACD_RAND` is hardware-address-derived plus `sent_num`; see
`LWIP_ACD_RAND` below).

Timing constants use the RFC 5227 defaults named by the specification
(`PROBE_WAIT 1s`, `PROBE_MIN 1s`, `PROBE_MAX 2s`, `PROBE_NUM 3`,
`ANNOUNCE_WAIT 2s`, `ANNOUNCE_NUM 2`, `ANNOUNCE_INTERVAL 2s`,
`MAX_CONFLICTS 10`, `DEFEND_INTERVAL 10s`, `RATE_LIMIT_INTERVAL 60s`) with
the recommended `ACD_TMR_INTERVAL` of 100 ms; the `lwip/prot/acd.h` header
defining them is not among the sources, so these values are modelled from
the spec.  The state machine itself is translated from `acd.c` with the
non-custom-timing preprocessor branch (`CONFIG_OPENER_ACD_CUSTOM_TIMING`
off); the custom-timing jitter macros of lines 184-205 are additionally
modelled separately (`OPENER_ACD_MS_TO_TICKS` and friends) because one
claim is about exactly those.
-/

/-- `enum acd_state` from `lwip/acd.h` (names as in the source). -/
inductive AcdState where
  | OFF
  | PROBE_WAIT
  | PROBING
  | ANNOUNCE_WAIT
  | ANNOUNCING
  | ONGOING
  | PASSIVE_ONGOING
  | RATE_LIMIT
deriving DecidableEq, Repr

/-- `enum acd_callback_enum`: the argument of `acd_conflict_callback_t`. -/
inductive AcdCallbackEnum where
  | IP_OK
  | RESTART_CLIENT
  | DECLINE
deriving DecidableEq, Repr

/-- `struct eth_addr`: a 6-byte MAC address. -/
structure EthAddr where
  b0 : Nat
  b1 : Nat
  b2 : Nat
  b3 : Nat
  b4 : Nat
  b5 : Nat
deriving DecidableEq, Repr

/-- The part of `struct etharp_hdr` that `acd_arp_reply` reads: the sender
hardware address and the (word-aligned copies of the) sender and target
IPv4 addresses.  IPv4 addresses are 32-bit values modelled as `Nat`. -/
structure EtharpHdr where
  shwaddr : EthAddr
  dhwaddr : EthAddr
  sipaddr : Nat
  dipaddr : Nat
deriving DecidableEq, Repr

/-- `struct acd`: the mutable per-context fields read or written by
`acd.c` (`state`, `ipaddr`, `ttw`, `sent_num`, `lastconflict`,
`num_conflicts`).  The intrusive `next` pointer and the stored callback
pointer are handled by the registry model and the event trace instead. -/
structure Acd where
  state : AcdState
  ipaddr : Nat
  ttw : Nat
  sent_num : Nat
  lastconflict : Nat
  num_conflicts : Nat
deriving DecidableEq, Repr

/-- Observable effects of one engine step, in C call order:
`etharp_acd_probe`, `etharp_acd_announce`, `acd_conflict_callback`,
`CipTcpIpSetLastAcdMac`, `CipTcpIpSetLastAcdRawData`. -/
inductive AcdEvent where
  | sendProbe (ipaddr : Nat)
  | sendAnnounce (ipaddr : Nat)
  | callback (res : AcdCallbackEnum)
  | diagMac (mac : EthAddr)
  | diagRaw (hdr : EtharpHdr)
deriving DecidableEq, Repr

/-- `ACD_TMR_INTERVAL` (ms), the recommended value 100. -/
def ACD_TMR_INTERVAL : Nat := 100

/-- `ACD_TICKS_PER_SECOND = 1000 / ACD_TMR_INTERVAL` (acd.c line 158). -/
def ACD_TICKS_PER_SECOND : Nat := 1000 / ACD_TMR_INTERVAL

/-- Modelled from the spec: RFC 5227 constant `PROBE_WAIT` (seconds) from
`lwip/prot/acd.h`, which is not among the sources. -/
def PROBE_WAIT : Nat := 1

/-- Modelled from the spec: RFC 5227 constant `PROBE_MIN` (seconds). -/
def PROBE_MIN : Nat := 1

/-- Modelled from the spec: RFC 5227 constant `PROBE_MAX` (seconds). -/
def PROBE_MAX : Nat := 2

/-- Modelled from the spec: RFC 5227 constant `PROBE_NUM`. -/
def PROBE_NUM : Nat := 3

/-- Modelled from the spec: RFC 5227 constant `ANNOUNCE_WAIT` (seconds). -/
def ANNOUNCE_WAIT : Nat := 2

/-- Modelled from the spec: RFC 5227 constant `ANNOUNCE_NUM`. -/
def ANNOUNCE_NUM : Nat := 2

/-- Modelled from the spec: RFC 5227 constant `ANNOUNCE_INTERVAL` (seconds). -/
def ANNOUNCE_INTERVAL : Nat := 2

/-- Modelled from the spec: RFC 5227 constant `MAX_CONFLICTS`. -/
def MAX_CONFLICTS : Nat := 10

/-- Modelled from the spec: RFC 5227 constant `DEFEND_INTERVAL` (seconds). -/
def DEFEND_INTERVAL : Nat := 10

/-- Modelled from the spec: RFC 5227 constant `RATE_LIMIT_INTERVAL` (seconds). -/
def RATE_LIMIT_INTERVAL : Nat := 60

/-- `ACD_ANNOUNCE_WAIT_TICKS_VALUE` (acd.c line 225, default branch). -/
def ACD_ANNOUNCE_WAIT_TICKS_VALUE : Nat := ANNOUNCE_WAIT * ACD_TICKS_PER_SECOND

/-- `ACD_ANNOUNCE_INTERVAL_TICKS_VALUE` (acd.c line 226, default branch). -/
def ACD_ANNOUNCE_INTERVAL_TICKS_VALUE : Nat := ANNOUNCE_INTERVAL * ACD_TICKS_PER_SECOND

/-- `ACD_PERIODIC_DEFEND_INTERVAL_TICKS` (acd.c line 215, default branch):
`DEFEND_INTERVAL * ACD_TICKS_PER_SECOND`. -/
def ACD_PERIODIC_DEFEND_INTERVAL_TICKS : Nat := DEFEND_INTERVAL * ACD_TICKS_PER_SECOND

/-- `LWIP_ACD_RAND(netif, acd)` (acd.c lines 168-172, default branch): a
32-bit value built from hardware-address bytes 5,3,2,4 plus
`acd->sent_num`, reduced mod 2^32 as `u32_t` arithmetic. -/
def LWIP_ACD_RAND (hwaddr : EthAddr) (sent_num : Nat) : Nat :=
  ((((hwaddr.b5 % 256) <<< 24) ||| ((hwaddr.b3 % 256) <<< 16) |||
    ((hwaddr.b2 % 256) <<< 8) ||| (hwaddr.b4 % 256)) + sent_num) % (2 ^ 32)

/-- `ACD_RANDOM_PROBE_WAIT(netif, acd)` (acd.c lines 218-219, default
branch), with the random source abstracted as `rnd sent_num`. -/
def ACD_RANDOM_PROBE_WAIT (rnd : Nat → Nat) (sent_num : Nat) : Nat :=
  rnd sent_num % (PROBE_WAIT * ACD_TICKS_PER_SECOND)

/-- `ACD_RANDOM_PROBE_INTERVAL(netif, acd)` (acd.c lines 221-223, default
branch). -/
def ACD_RANDOM_PROBE_INTERVAL (rnd : Nat → Nat) (sent_num : Nat) : Nat :=
  rnd sent_num % ((PROBE_MAX - PROBE_MIN) * ACD_TICKS_PER_SECOND) +
    PROBE_MIN * ACD_TICKS_PER_SECOND

/-- `OPENER_ACD_MS_TO_TICKS(ms)` (acd.c line 184, custom-timing branch):
ceiling division of milliseconds by the tick interval, with 0 ms mapped to
0 ticks. -/
def OPENER_ACD_MS_TO_TICKS (interval ms : Nat) : Nat :=
  if ms = 0 then 0 else (ms + (interval - 1)) / interval

/-- The divisor used by `ACD_RANDOM_PROBE_WAIT` in the custom-timing branch
(acd.c line 198): the probe-wait tick count, or 1 when that is 0. -/
def opener_probe_wait_divisor (interval probeWaitMs : Nat) : Nat :=
  if 0 < OPENER_ACD_MS_TO_TICKS interval probeWaitMs then
    OPENER_ACD_MS_TO_TICKS interval probeWaitMs
  else 1

/-- `ACD_RANDOM_PROBE_WAIT` in the custom-timing branch (acd.c lines
197-198): 0 when `probe_wait_ms` is configured as 0, else the random value
modulo the (positive) probe-wait divisor. -/
def OPENER_ACD_RANDOM_PROBE_WAIT (interval probeWaitMs r : Nat) : Nat :=
  if probeWaitMs = 0 then 0 else r % opener_probe_wait_divisor interval probeWaitMs

/-- The divisor used by `ACD_RANDOM_PROBE_INTERVAL` in the custom-timing
branch (acd.c line 201): the difference of the max and min probe tick
counts. -/
def opener_probe_interval_divisor (interval probeMinMs probeMaxMs : Nat) : Nat :=
  OPENER_ACD_MS_TO_TICKS interval probeMaxMs - OPENER_ACD_MS_TO_TICKS interval probeMinMs

/-- `ACD_RANDOM_PROBE_INTERVAL` in the custom-timing branch (acd.c lines
200-202): jittered only when the max tick count strictly exceeds the min. -/
def OPENER_ACD_RANDOM_PROBE_INTERVAL (interval probeMinMs probeMaxMs r : Nat) : Nat :=
  if OPENER_ACD_MS_TO_TICKS interval probeMinMs < OPENER_ACD_MS_TO_TICKS interval probeMaxMs then
    r % opener_probe_interval_divisor interval probeMinMs probeMaxMs +
      OPENER_ACD_MS_TO_TICKS interval probeMinMs
  else
    OPENER_ACD_MS_TO_TICKS interval probeMinMs

/-- `err_t`: lwIP error code; `ERR_OK` (0) is the success value. -/
def ERR_OK : Int := 0

/-- `acd_add` (acd.c lines 244-273), with contexts identified by `Nat` ids
standing for the C pointers, the interface registry `netif->acd_list` as
the list of registered ids, and the per-context stored conflict callback
(`acd->acd_conflict_callback`) as a map from context id to callback id.
The callback assignment of line 253 runs unconditionally, before the
duplicate check, so a duplicate registration still overwrites the stored
callback of the already-registered context; the list itself is only
extended when the context was not yet on it, and `ERR_OK` is returned in
both cases. -/
def acd_add (acd_list : List Nat) (callbacks : Nat → Nat) (acd cb : Nat) :
    Int × List Nat × (Nat → Nat) :=
  let callbacks := fun c => if c = acd then cb else callbacks c
  if acd ∈ acd_list then (ERR_OK, acd_list, callbacks)
  else (ERR_OK, acd :: acd_list, callbacks)

/-- `acd_stop` (acd.c lines 349-358): a NULL check, then the context state
is forced to `OFF`; always returns `ERR_OK`.  The registry is not
consulted. -/
def acd_stop : Option Acd → Int × Option Acd
  | none => (ERR_OK, none)
  | some acd => (ERR_OK, some { acd with state := AcdState.OFF })

/-- `acd_start` (acd.c lines 312-341): reset `sent_num` and
`lastconflict`, install the candidate address, enter `PROBE_WAIT`, and
draw the initial jittered wait (cast to `u16_t`).  The macro reads
`acd->sent_num` after it was reset to 0.  The C function also returns
`ERR_OK` unconditionally. -/
def acd_start (rnd : Nat → Nat) (acd : Acd) (ipaddr : Nat) : Acd :=
  let acd := { acd with
    sent_num := 0
    lastconflict := 0
    ipaddr := ipaddr
    state := AcdState.PROBE_WAIT }
  { acd with ttw := ACD_RANDOM_PROBE_WAIT rnd acd.sent_num % 65536 }

/-- Body of the `ACD_FOREACH` loop of `acd_tmr` (acd.c lines 413-617) for
one context and one tick: decrement `lastconflict` and `ttw` (each only
when positive), then dispatch on the state.  `rnd` abstracts
`LWIP_ACD_RAND` as a function of `acd->sent_num` at the call site. -/
def acd_tmr_step (rnd : Nat → Nat) (acd : Acd) : Acd × List AcdEvent :=
  let acd := if 0 < acd.lastconflict then
      { acd with lastconflict := acd.lastconflict - 1 } else acd
  let acd := if 0 < acd.ttw then { acd with ttw := acd.ttw - 1 } else acd
  match acd.state with
  | AcdState.PROBE_WAIT | AcdState.PROBING =>
      if acd.ttw = 0 then
        let acd := { acd with state := AcdState.PROBING }
        let acd := { acd with sent_num := acd.sent_num + 1 }
        if PROBE_NUM ≤ acd.sent_num then
          ({ acd with
              state := AcdState.ANNOUNCE_WAIT
              sent_num := 0
              ttw := ACD_ANNOUNCE_WAIT_TICKS_VALUE },
           [AcdEvent.sendProbe acd.ipaddr])
        else
          ({ acd with ttw := ACD_RANDOM_PROBE_INTERVAL rnd acd.sent_num % 65536 },
           [AcdEvent.sendProbe acd.ipaddr])
      else (acd, [])
  | AcdState.ANNOUNCE_WAIT | AcdState.ANNOUNCING =>
      if acd.ttw = 0 then
        let acd := if acd.sent_num = 0 then
            { acd with state := AcdState.ANNOUNCING, num_conflicts := 0 } else acd
        let acd := { acd with
            ttw := ACD_ANNOUNCE_INTERVAL_TICKS_VALUE
            sent_num := acd.sent_num + 1 }
        if ANNOUNCE_NUM ≤ acd.sent_num then
          ({ acd with
              state := AcdState.ONGOING
              sent_num := 0
              ttw := ACD_PERIODIC_DEFEND_INTERVAL_TICKS },
           [AcdEvent.sendAnnounce acd.ipaddr, AcdEvent.callback AcdCallbackEnum.IP_OK])
        else
          (acd, [AcdEvent.sendAnnounce acd.ipaddr])
      else (acd, [])
  | AcdState.ONGOING =>
      if acd.ttw = 0 then
        ({ acd with ttw := ACD_PERIODIC_DEFEND_INTERVAL_TICKS },
         [AcdEvent.sendProbe acd.ipaddr])
      else (acd, [])
  | AcdState.PASSIVE_ONGOING => (acd, [])
  | AcdState.RATE_LIMIT =>
      if acd.ttw = 0 then
        ({ acd with state := AcdState.OFF },
         [AcdEvent.callback AcdCallbackEnum.RESTART_CLIENT])
      else (acd, [])
  | AcdState.OFF => (acd, [])

/-- Iterated ticks: run `acd_tmr_step` `n` times, concatenating the event
traces in order. -/
def acd_tmr_iter (rnd : Nat → Nat) : Acd → Nat → Acd × List AcdEvent
  | acd, 0 => (acd, [])
  | acd, n + 1 =>
      let s := acd_tmr_step rnd acd
      let r := acd_tmr_iter rnd s.1 n
      (r.1, s.2 ++ r.2)

/-- `acd_restart` (acd.c lines 642-666): bump the conflict counter,
deliver `DECLINE`, then either enter `RATE_LIMIT` (counter at
`MAX_CONFLICTS` or more, `ttw` loaded with the rate-limit interval, cast
to `u16_t`) or stop and deliver `RESTART_CLIENT`. -/
def acd_restart (acd : Acd) : Acd × List AcdEvent :=
  let acd := { acd with num_conflicts := acd.num_conflicts + 1 }
  if MAX_CONFLICTS ≤ acd.num_conflicts then
    ({ acd with
        state := AcdState.RATE_LIMIT
        ttw := RATE_LIMIT_INTERVAL * ACD_TICKS_PER_SECOND % 65536 },
     [AcdEvent.callback AcdCallbackEnum.DECLINE])
  else
    ({ acd with state := AcdState.OFF },
     [AcdEvent.callback AcdCallbackEnum.DECLINE,
      AcdEvent.callback AcdCallbackEnum.RESTART_CLIENT])

/-- `acd_handle_arp_conflict` (acd.c lines 785-828): immediate retreat in
passive mode; otherwise restart if still inside the defend interval, else
defend with one announce and arm `lastconflict`. -/
def acd_handle_arp_conflict (acd : Acd) : Acd × List AcdEvent :=
  if acd.state = AcdState.PASSIVE_ONGOING then
    ({ acd with state := AcdState.OFF },
     [AcdEvent.callback AcdCallbackEnum.DECLINE])
  else
    if 0 < acd.lastconflict then
      acd_restart acd
    else
      ({ acd with lastconflict := DEFEND_INTERVAL * ACD_TICKS_PER_SECOND },
       [AcdEvent.sendAnnounce acd.ipaddr])

/-- The probe-phase conflict condition of `acd_arp_reply` (acd.c lines
723-727): sender IP equals the candidate with a foreign sender MAC, or a
third-party probe (sender IP 0.0.0.0) targeting the candidate with a
foreign sender MAC. -/
def acd_probe_conflict (netifaddr : EthAddr) (hdr : EtharpHdr) (acd : Acd) : Prop :=
  (hdr.sipaddr = acd.ipaddr ∧ ¬netifaddr = hdr.shwaddr) ∨
  (hdr.sipaddr = 0 ∧ hdr.dipaddr = acd.ipaddr ∧ ¬netifaddr = hdr.shwaddr)

instance (netifaddr : EthAddr) (hdr : EtharpHdr) (acd : Acd) :
    Decidable (acd_probe_conflict netifaddr hdr acd) := by
  unfold acd_probe_conflict
  exact inferInstance

/-- The ongoing-phase conflict condition of `acd_arp_reply` (acd.c lines
750-751): sender IP equals the candidate and the sender MAC is foreign. -/
def acd_ongoing_conflict (netifaddr : EthAddr) (hdr : EtharpHdr) (acd : Acd) : Prop :=
  hdr.sipaddr = acd.ipaddr ∧ ¬netifaddr = hdr.shwaddr

instance (netifaddr : EthAddr) (hdr : EtharpHdr) (acd : Acd) :
    Decidable (acd_ongoing_conflict netifaddr hdr acd) := by
  unfold acd_ongoing_conflict
  exact inferInstance

/-- Conflict classification of one `acd_arp_reply` loop iteration, as a
predicate: the condition under which the diagnostic capture and the
conflict handler run for the given context. -/
def acd_is_conflict (netifaddr : EthAddr) (hdr : EtharpHdr) (acd : Acd) : Prop :=
  match acd.state with
  | AcdState.PROBE_WAIT | AcdState.PROBING | AcdState.ANNOUNCE_WAIT =>
      acd_probe_conflict netifaddr hdr acd
  | AcdState.ANNOUNCING | AcdState.ONGOING | AcdState.PASSIVE_ONGOING =>
      acd_ongoing_conflict netifaddr hdr acd
  | AcdState.OFF | AcdState.RATE_LIMIT => False

instance (netifaddr : EthAddr) (hdr : EtharpHdr) (acd : Acd) :
    Decidable (acd_is_conflict netifaddr hdr acd) := by
  unfold acd_is_conflict
  cases acd.state <;> exact inferInstance

/-- Body of the `ACD_FOREACH` loop of `acd_arp_reply` (acd.c lines
706-779) for one context: classify the frame by state; on a conflict,
capture the sender MAC and the raw frame for the diagnostic sink
(`CipTcpIpSetLastAcdMac`, `CipTcpIpSetLastAcdRawData`) and then run the
matching conflict handler. -/
def acd_arp_reply_ctx (netifaddr : EthAddr) (hdr : EtharpHdr) (acd : Acd) :
    Acd × List AcdEvent :=
  match acd.state with
  | AcdState.OFF | AcdState.RATE_LIMIT => (acd, [])
  | AcdState.PROBE_WAIT | AcdState.PROBING | AcdState.ANNOUNCE_WAIT =>
      if acd_probe_conflict netifaddr hdr acd then
        let r := acd_restart acd
        (r.1, AcdEvent.diagMac hdr.shwaddr :: AcdEvent.diagRaw hdr :: r.2)
      else (acd, [])
  | AcdState.ANNOUNCING | AcdState.ONGOING | AcdState.PASSIVE_ONGOING =>
      if acd_ongoing_conflict netifaddr hdr acd then
        let r := acd_handle_arp_conflict acd
        (r.1, AcdEvent.diagMac hdr.shwaddr :: AcdEvent.diagRaw hdr :: r.2)
      else (acd, [])

/-- `acd_put_in_passive_mode` (acd.c lines 833-858). -/
def acd_put_in_passive_mode (acd : Acd) : Acd × List AcdEvent :=
  match acd.state with
  | AcdState.OFF | AcdState.PASSIVE_ONGOING => (acd, [])
  | AcdState.PROBE_WAIT | AcdState.PROBING
  | AcdState.ANNOUNCE_WAIT | AcdState.RATE_LIMIT =>
      ({ acd with state := AcdState.OFF },
       [AcdEvent.callback AcdCallbackEnum.DECLINE])
  | AcdState.ANNOUNCING | AcdState.ONGOING =>
      ({ acd with state := AcdState.PASSIVE_ONGOING }, [])

/-- `ip4_addr_islinklocal`: the address is in 169.254.0.0/16. -/
def ip4_addr_islinklocal (ip : Nat) : Prop := ip &&& 0xFFFF0000 = 0xA9FE0000

instance (ip : Nat) : Decidable (ip4_addr_islinklocal ip) := by
  unfold ip4_addr_islinklocal
  exact inferInstance

/-- Body of the `ACD_FOREACH` loop of `acd_netif_ip_addr_changed` (acd.c
lines 868-899) for one context, including the leading any-address guard
(line 883): nothing happens unless both addresses are non-ANY, the context
matches the old address, and the change is from a link-local to a
non-link-local address; then the context is put in passive mode. -/
def acd_netif_ip_addr_changed_ctx (oldAddr newAddr : Nat) (acd : Acd) :
    Acd × List AcdEvent :=
  if oldAddr = 0 ∨ newAddr = 0 then (acd, [])
  else if acd.ipaddr = oldAddr then
    if ip4_addr_islinklocal oldAddr ∧ ¬ip4_addr_islinklocal newAddr then
      acd_put_in_passive_mode acd
    else (acd, [])
  else (acd, [])

/-- Recognizer for the `IP_OK` callback event. -/
def isIpOk : AcdEvent → Bool
  | AcdEvent.callback AcdCallbackEnum.IP_OK => true
  | _ => false

/-- Number of `IP_OK` callback invocations in a trace. -/
def countIpOk (l : List AcdEvent) : Nat := (l.filter isIpOk).length

/-- Recognizer for the `RESTART_CLIENT` callback event. -/
def isRestartCb : AcdEvent → Bool
  | AcdEvent.callback AcdCallbackEnum.RESTART_CLIENT => true
  | _ => false

/-- Number of `RESTART_CLIENT` callback invocations in a trace. -/
def countRestartCb (l : List AcdEvent) : Nat := (l.filter isRestartCb).length

/-! ### Generic tick lemmas -/

/-- One tick with more than one tick still to wait is a pure decrement of
`ttw` and `lastconflict`, with no outbound action. -/
theorem acd_tmr_step_decrement (rnd : Nat → Nat) (acd : Acd) (ht : 1 < acd.ttw) :
    acd_tmr_step rnd acd =
      ({ acd with ttw := acd.ttw - 1, lastconflict := acd.lastconflict - 1 }, []) := by
  cases acd with
  | mk st ip t sn lc nc =>
    simp only [Acd.ttw] at ht
    have h1 : 0 < t := by omega
    have h0 : ¬t - 1 = 0 := by omega
    by_cases hlc : 0 < lc
    · cases st <;> simp [acd_tmr_step, hlc, h1, h0]
    · have hlc0 : lc = 0 := by omega
      subst hlc0
      cases st <;> simp [acd_tmr_step, h1, h0]

/-- Splitting an iterated tick run. -/
theorem acd_tmr_iter_add (rnd : Nat → Nat) (acd : Acd) (m n : Nat) :
    acd_tmr_iter rnd acd (m + n) =
      ((acd_tmr_iter rnd (acd_tmr_iter rnd acd m).1 n).1,
       (acd_tmr_iter rnd acd m).2 ++ (acd_tmr_iter rnd (acd_tmr_iter rnd acd m).1 n).2) := by
  induction m generalizing acd with
  | zero => simp [acd_tmr_iter]
  | succ m ih =>
      have hadd : m + 1 + n = (m + n) + 1 := by omega
      rw [hadd]
      simp only [acd_tmr_iter]
      rw [ih]
      simp [List.append_assoc]

/-- Running fewer ticks than `ttw` only counts down, with no outbound
action, provided `lastconflict` is clear. -/
theorem acd_tmr_iter_countdown (rnd : Nat → Nat) :
    ∀ (k : Nat) (acd : Acd), acd.lastconflict = 0 → k < acd.ttw →
      acd_tmr_iter rnd acd k = ({ acd with ttw := acd.ttw - k }, []) := by
  intro k
  induction k with
  | zero => intro acd _ _; rfl
  | succ k ih =>
      intro acd hlc hk
      have hstep := acd_tmr_step_decrement rnd acd (by omega)
      simp only [acd_tmr_iter, hstep]
      rw [ih ({ acd with ttw := acd.ttw - 1, lastconflict := acd.lastconflict - 1 })
        (by simp [hlc]) (by simp; omega)]
      simp
      constructor
      · omega
      · omega

/-- Running fewer ticks than `ttw` only counts down `ttw` and the
conflict cooldown, with no outbound action, for every starting value of
`lastconflict`. -/
theorem acd_tmr_iter_countdown_cooldown (rnd : Nat → Nat) :
    ∀ (k : Nat) (acd : Acd), k < acd.ttw →
      acd_tmr_iter rnd acd k =
        ({ acd with ttw := acd.ttw - k, lastconflict := acd.lastconflict - k }, []) := by
  intro k
  induction k with
  | zero => intro acd _; rfl
  | succ k ih =>
      intro acd hk
      have hstep := acd_tmr_step_decrement rnd acd (by omega)
      simp only [acd_tmr_iter, hstep]
      rw [ih ({ acd with ttw := acd.ttw - 1, lastconflict := acd.lastconflict - 1 })
        (by simp; omega)]
      simp
      constructor
      · omega
      · omega

/-- Firing a phase change from `ttw = 1` after the decrement is the same
as firing it directly from `ttw = 0`. -/
theorem acd_tmr_step_fire_eq (rnd : Nat → Nat) (acd : Acd) :
    acd_tmr_step rnd { acd with ttw := 1 } = acd_tmr_step rnd { acd with ttw := 0 } := by
  cases acd with
  | mk st ip t sn lc nc =>
    by_cases hlc : 0 < lc <;> cases st <;> simp [acd_tmr_step, hlc]

/-- A context with `lastconflict` clear reaches its next phase action in
exactly `max 1 ttw` ticks, and the resulting step is the firing step. -/
theorem acd_tmr_iter_fire (rnd : Nat → Nat) (acd : Acd) (hlc : acd.lastconflict = 0) :
    acd_tmr_iter rnd acd (max 1 acd.ttw) = acd_tmr_step rnd { acd with ttw := 0 } := by
  rcases Nat.eq_zero_or_pos acd.ttw with h | h
  · have ha : ({ acd with ttw := 0 } : Acd) = acd := by
      cases acd; simp_all
    rw [h]
    simp only [Nat.max_eq_left (by omega : 0 ≤ 1)]
    simp only [acd_tmr_iter]
    rw [ha]
    simp [acd_tmr_iter]
  · have hmax : max 1 acd.ttw = acd.ttw := Nat.max_eq_right h
    rw [hmax]
    obtain ⟨w, hw⟩ : ∃ w, acd.ttw = w + 1 := ⟨acd.ttw - 1, by omega⟩
    rw [hw, acd_tmr_iter_add rnd acd w 1]
    rw [acd_tmr_iter_countdown rnd w acd hlc (by omega)]
    have h1 : acd.ttw - w = 1 := by omega
    rw [h1]
    simp only [acd_tmr_iter]
    rw [acd_tmr_step_fire_eq]
    simp [acd_tmr_iter]

/-! ### Concrete phase steps under the default configuration -/

/-- The `(u16_t)` cast of the jittered probe interval is a no-op: the
value is `rnd s % 10 + 10 < 65536`. -/
theorem probe_interval_mod (rnd : Nat → Nat) (s : Nat) :
    ACD_RANDOM_PROBE_INTERVAL rnd s % 65536 = rnd s % 10 + 10 := by
  unfold ACD_RANDOM_PROBE_INTERVAL PROBE_MAX PROBE_MIN ACD_TICKS_PER_SECOND ACD_TMR_INTERVAL
  norm_num
  omega

/-- `acd_start` fully evaluated: state `PROBE_WAIT`, counters cleared,
initial jitter `rnd 0 % 10` ticks, conflict counter preserved. -/
theorem acd_start_eq (rnd : Nat → Nat) (acd : Acd) (ip : Nat) :
    acd_start rnd acd ip =
      ⟨AcdState.PROBE_WAIT, ip, rnd 0 % 10, 0, 0, acd.num_conflicts⟩ := by
  cases acd
  simp [acd_start, ACD_RANDOM_PROBE_WAIT, PROBE_WAIT, ACD_TICKS_PER_SECOND, ACD_TMR_INTERVAL]
  omega

/-- Firing a probe with probes still to go: state `PROBING`, next jittered
interval `rnd (s+1) % 10 + 10`. -/
theorem acd_step_probe_fire (rnd : Nat → Nat) (st : AcdState) (ip nc s : Nat)
    (hst : st = AcdState.PROBE_WAIT ∨ st = AcdState.PROBING) (hs : s + 1 < 3) :
    acd_tmr_step rnd ⟨st, ip, 0, s, 0, nc⟩ =
      (⟨AcdState.PROBING, ip, rnd (s + 1) % 10 + 10, s + 1, 0, nc⟩,
       [AcdEvent.sendProbe ip]) := by
  have hmod := probe_interval_mod rnd (s + 1)
  have hn : ¬PROBE_NUM ≤ s + 1 := by unfold PROBE_NUM; omega
  rcases hst with h | h <;> subst h <;> simp [acd_tmr_step, hn, hmod]

/-- Firing the last probe: transition to `ANNOUNCE_WAIT` with a 20-tick
(2000 ms) announce wait. -/
theorem acd_step_probe_last (rnd : Nat → Nat) (ip nc : Nat) :
    acd_tmr_step rnd ⟨AcdState.PROBING, ip, 0, 2, 0, nc⟩ =
      (⟨AcdState.ANNOUNCE_WAIT, ip, 20, 0, 0, nc⟩, [AcdEvent.sendProbe ip]) := by
  simp [acd_tmr_step, PROBE_NUM, ACD_ANNOUNCE_WAIT_TICKS_VALUE, ANNOUNCE_WAIT,
    ACD_TICKS_PER_SECOND, ACD_TMR_INTERVAL]

/-- Firing the first announce: state `ANNOUNCING`, conflict counter reset,
20-tick (2000 ms) announce interval. -/
theorem acd_step_announce_first (rnd : Nat → Nat) (ip nc : Nat) :
    acd_tmr_step rnd ⟨AcdState.ANNOUNCE_WAIT, ip, 0, 0, 0, nc⟩ =
      (⟨AcdState.ANNOUNCING, ip, 20, 1, 0, 0⟩, [AcdEvent.sendAnnounce ip]) := by
  simp [acd_tmr_step, ANNOUNCE_NUM, ACD_ANNOUNCE_INTERVAL_TICKS_VALUE, ANNOUNCE_INTERVAL,
    ACD_TICKS_PER_SECOND, ACD_TMR_INTERVAL]

/-- Firing the second (last) announce: transition to `ONGOING` with the
periodic-defend timer armed and the `IP_OK` callback delivered. -/
theorem acd_step_announce_last (rnd : Nat → Nat) (ip nc : Nat) :
    acd_tmr_step rnd ⟨AcdState.ANNOUNCING, ip, 0, 1, 0, nc⟩ =
      (⟨AcdState.ONGOING, ip, 100, 0, 0, nc⟩,
       [AcdEvent.sendAnnounce ip, AcdEvent.callback AcdCallbackEnum.IP_OK]) := by
  simp [acd_tmr_step, ANNOUNCE_NUM, ACD_ANNOUNCE_INTERVAL_TICKS_VALUE,
    ACD_PERIODIC_DEFEND_INTERVAL_TICKS, DEFEND_INTERVAL, ANNOUNCE_INTERVAL,
    ACD_TICKS_PER_SECOND, ACD_TMR_INTERVAL]

/-! ### Counting callbacks in traces -/

theorem countIpOk_append (l1 l2 : List AcdEvent) :
    countIpOk (l1 ++ l2) = countIpOk l1 + countIpOk l2 := by
  simp [countIpOk]

theorem countRestartCb_append (l1 l2 : List AcdEvent) :
    countRestartCb (l1 ++ l2) = countRestartCb l1 + countRestartCb l2 := by
  simp [countRestartCb]

/-- The `IP_OK` count of a tick trace is monotone in the tick count. -/
theorem countIpOk_mono (rnd : Nat → Nat) (acd : Acd) (k m : Nat) (h : k ≤ m) :
    countIpOk (acd_tmr_iter rnd acd k).2 ≤ countIpOk (acd_tmr_iter rnd acd m).2 := by
  obtain ⟨d, rfl⟩ := Nat.exists_eq_add_of_le h
  rw [acd_tmr_iter_add rnd acd k d]
  rw [countIpOk_append]
  omega

/-- One tick in `ONGOING` stays in `ONGOING` and never delivers `IP_OK`. -/
theorem acd_step_ongoing (rnd : Nat → Nat) (acd : Acd) (h : acd.state = AcdState.ONGOING) :
    (acd_tmr_step rnd acd).1.state = AcdState.ONGOING ∧
      countIpOk (acd_tmr_step rnd acd).2 = 0 := by
  cases acd with
  | mk st ip t sn lc nc =>
    simp only [Acd.state] at h
    subst h
    by_cases hlc : 0 < lc <;> by_cases ht : 0 < t <;>
      simp [acd_tmr_step, hlc, ht, countIpOk, isIpOk] <;>
        split <;> simp [countIpOk, isIpOk]

/-- Any number of ticks in `ONGOING` stays in `ONGOING` and never delivers
`IP_OK`. -/
theorem acd_iter_ongoing (rnd : Nat → Nat) :
    ∀ (n : Nat) (acd : Acd), acd.state = AcdState.ONGOING →
      (acd_tmr_iter rnd acd n).1.state = AcdState.ONGOING ∧
        countIpOk (acd_tmr_iter rnd acd n).2 = 0 := by
  intro n
  induction n with
  | zero => intro acd h; simpa [acd_tmr_iter, countIpOk] using h
  | succ n ih =>
      intro acd h
      have hs := acd_step_ongoing rnd acd h
      have hrec := ih (acd_tmr_step rnd acd).1 hs.1
      simp only [acd_tmr_iter]
      refine ⟨hrec.1, ?_⟩
      rw [countIpOk_append]
      omega

/-! ### C1: liveness of an unopposed probe run -/

/-- C1 (amended): for every jitter oracle, starting a context with the RFC
5227 defaults and ticking at 100 ms with no inbound ARP reaches `ONGOING`
and delivers `IP_OK` exactly once, at a tick `T` with `61 ≤ T ≤ 110`: no
`IP_OK` is delivered before `T`, and none after. (The claim's lower bound
of 90 ticks is refuted by `acd_liveness_cex`; 61 ticks is the true lower
bound: the first probe can fire on tick 1 and each of the two jittered
probe intervals can be as short as 10 ticks.) -/
theorem acd_liveness_amended (rnd : Nat → Nat) (acd0 : Acd) (ip : Nat) :
    ∃ T, 61 ≤ T ∧ T ≤ 110 ∧
      (acd_tmr_iter rnd (acd_start rnd acd0 ip) T).1.state = AcdState.ONGOING ∧
      countIpOk (acd_tmr_iter rnd (acd_start rnd acd0 ip) T).2 = 1 ∧
      (∀ k, k < T → countIpOk (acd_tmr_iter rnd (acd_start rnd acd0 ip) k).2 = 0) ∧
      (∀ n, countIpOk (acd_tmr_iter rnd (acd_start rnd acd0 ip) (T + n)).2 = 1) := by
  have hstart := acd_start_eq rnd acd0 ip
  set nc := acd0.num_conflicts with hnc
  set w0 := rnd 0 % 10 with hw0
  set i1 := rnd 1 % 10 + 10 with hi1
  set i2 := rnd 2 % 10 + 10 with hi2
  set t1 := max 1 w0 with ht1
  -- phase computations
  have H1 : acd_tmr_iter rnd (⟨AcdState.PROBE_WAIT, ip, w0, 0, 0, nc⟩ : Acd) t1 =
      ((⟨AcdState.PROBING, ip, i1, 1, 0, nc⟩ : Acd), [AcdEvent.sendProbe ip]) := by
    have h := acd_tmr_iter_fire rnd (⟨AcdState.PROBE_WAIT, ip, w0, 0, 0, nc⟩ : Acd) rfl
    rw [acd_step_probe_fire rnd AcdState.PROBE_WAIT ip nc 0 (Or.inl rfl) (by omega)] at h
    exact h
  have H2 : acd_tmr_iter rnd (⟨AcdState.PROBING, ip, i1, 1, 0, nc⟩ : Acd) i1 =
      ((⟨AcdState.PROBING, ip, i2, 2, 0, nc⟩ : Acd), [AcdEvent.sendProbe ip]) := by
    have h := acd_tmr_iter_fire rnd (⟨AcdState.PROBING, ip, i1, 1, 0, nc⟩ : Acd) rfl
    rw [acd_step_probe_fire rnd AcdState.PROBING ip nc 1 (Or.inr rfl) (by omega)] at h
    have hm : max 1 i1 = i1 := Nat.max_eq_right (by omega)
    rw [hm] at h
    exact h
  have H3 : acd_tmr_iter rnd (⟨AcdState.PROBING, ip, i2, 2, 0, nc⟩ : Acd) i2 =
      ((⟨AcdState.ANNOUNCE_WAIT, ip, 20, 0, 0, nc⟩ : Acd), [AcdEvent.sendProbe ip]) := by
    have h := acd_tmr_iter_fire rnd (⟨AcdState.PROBING, ip, i2, 2, 0, nc⟩ : Acd) rfl
    rw [acd_step_probe_last rnd ip nc] at h
    have hm : max 1 i2 = i2 := Nat.max_eq_right (by omega)
    rw [hm] at h
    exact h
  have H4 : acd_tmr_iter rnd (⟨AcdState.ANNOUNCE_WAIT, ip, 20, 0, 0, nc⟩ : Acd) 20 =
      ((⟨AcdState.ANNOUNCING, ip, 20, 1, 0, 0⟩ : Acd), [AcdEvent.sendAnnounce ip]) := by
    have h := acd_tmr_iter_fire rnd (⟨AcdState.ANNOUNCE_WAIT, ip, 20, 0, 0, nc⟩ : Acd) rfl
    rw [acd_step_announce_first rnd ip nc] at h
    exact h
  have H5 : acd_tmr_iter rnd (⟨AcdState.ANNOUNCING, ip, 20, 1, 0, 0⟩ : Acd) 20 =
      ((⟨AcdState.ONGOING, ip, 100, 0, 0, 0⟩ : Acd),
       [AcdEvent.sendAnnounce ip, AcdEvent.callback AcdCallbackEnum.IP_OK]) := by
    have h := acd_tmr_iter_fire rnd (⟨AcdState.ANNOUNCING, ip, 20, 1, 0, 0⟩ : Acd) rfl
    rw [acd_step_announce_last rnd ip 0] at h
    exact h
  -- full run
  refine ⟨t1 + (i1 + (i2 + (20 + 20))), by omega, by omega, ?_, ?_, ?_, ?_⟩
  all_goals rw [hstart]
  case _ =>
    rw [acd_tmr_iter_add rnd _ t1, H1, acd_tmr_iter_add rnd _ i1, H2,
        acd_tmr_iter_add rnd _ i2, H3, acd_tmr_iter_add rnd _ 20, H4, H5]
  case _ =>
    rw [acd_tmr_iter_add rnd _ t1, H1, acd_tmr_iter_add rnd _ i1, H2,
        acd_tmr_iter_add rnd _ i2, H3, acd_tmr_iter_add rnd _ 20, H4, H5]
    simp [countIpOk, isIpOk]
  case _ =>
    intro k hk
    have hpre : countIpOk (acd_tmr_iter rnd (⟨AcdState.PROBE_WAIT, ip, w0, 0, 0, nc⟩ : Acd)
        (t1 + (i1 + (i2 + (20 + 19))))).2 = 0 := by
      have H5a : acd_tmr_iter rnd (⟨AcdState.ANNOUNCING, ip, 20, 1, 0, 0⟩ : Acd) 19 =
          ((⟨AcdState.ANNOUNCING, ip, 1, 1, 0, 0⟩ : Acd), []) := by
        have h := acd_tmr_iter_countdown rnd 19 (⟨AcdState.ANNOUNCING, ip, 20, 1, 0, 0⟩ : Acd)
          rfl (by simp)
        exact h
      rw [acd_tmr_iter_add rnd _ t1, H1, acd_tmr_iter_add rnd _ i1, H2,
          acd_tmr_iter_add rnd _ i2, H3, acd_tmr_iter_add rnd _ 20, H4, H5a]
      simp [countIpOk, isIpOk]
    have hmono := countIpOk_mono rnd (⟨AcdState.PROBE_WAIT, ip, w0, 0, 0, nc⟩ : Acd)
      k (t1 + (i1 + (i2 + (20 + 19)))) (by omega)
    omega
  case _ =>
    intro n
    rw [acd_tmr_iter_add rnd _ (t1 + (i1 + (i2 + (20 + 20)))) n]
    rw [countIpOk_append]
    have hfull : acd_tmr_iter rnd (⟨AcdState.PROBE_WAIT, ip, w0, 0, 0, nc⟩ : Acd)
        (t1 + (i1 + (i2 + (20 + 20)))) =
        ((⟨AcdState.ONGOING, ip, 100, 0, 0, 0⟩ : Acd),
         [AcdEvent.sendProbe ip, AcdEvent.sendProbe ip, AcdEvent.sendProbe ip,
          AcdEvent.sendAnnounce ip, AcdEvent.sendAnnounce ip,
          AcdEvent.callback AcdCallbackEnum.IP_OK]) := by
      rw [acd_tmr_iter_add rnd _ t1, H1, acd_tmr_iter_add rnd _ i1, H2,
          acd_tmr_iter_add rnd _ i2, H3, acd_tmr_iter_add rnd _ 20, H4, H5]
      simp
    rw [hfull]
    have hong := acd_iter_ongoing rnd n (⟨AcdState.ONGOING, ip, 100, 0, 0, 0⟩ : Acd) rfl
    rw [hong.2]
    simp [countIpOk, isIpOk]

/-- C1 counterexample: with the all-zero jitter oracle, the `IP_OK`
callback fires by tick 61 (6100 ms) — earlier than the 90 ticks (9000 ms)
the claim asserts as a lower bound. -/
theorem acd_liveness_cex :
    countIpOk (acd_tmr_iter (fun _ => 0)
      (acd_start (fun _ => 0) ⟨AcdState.OFF, 0, 0, 0, 0, 0⟩ 3232235826) 61).2 = 1 ∧
    61 < 90 := by
  constructor
  · rfl
  · decide

/-! ### C2, C3: conflict classification and handling -/

/-- The probe-phase conflict condition, stated with the foreign-MAC
inequality in the claim's orientation. -/
theorem acd_probe_conflict_iff (netifaddr : EthAddr) (hdr : EtharpHdr) (acd : Acd) :
    acd_probe_conflict netifaddr hdr acd ↔
      ((hdr.sipaddr = acd.ipaddr ∧ hdr.shwaddr ≠ netifaddr) ∨
       (hdr.sipaddr = 0 ∧ hdr.dipaddr = acd.ipaddr ∧ hdr.shwaddr ≠ netifaddr)) := by
  unfold acd_probe_conflict
  constructor
  · rintro (⟨h1, h2⟩ | ⟨h1, h2, h3⟩)
    · exact Or.inl ⟨h1, fun he => h2 he.symm⟩
    · exact Or.inr ⟨h1, h2, fun he => h3 he.symm⟩
  · rintro (⟨h1, h2⟩ | ⟨h1, h2, h3⟩)
    · exact Or.inl ⟨h1, fun he => h2 he.symm⟩
    · exact Or.inr ⟨h1, h2, fun he => h3 he.symm⟩


/-- C2: in `PROBE_WAIT`, `PROBING` or `ANNOUNCE_WAIT`, an inbound ARP
frame is classified as a conflict (i.e. the loop body acts at all) iff
the sender IP equals the candidate with a foreign sender MAC, or the
sender IP is 0.0.0.0 with the target IP equal to the candidate and a
foreign sender MAC; on a conflict the consecutive-conflict counter is
incremented and, while it stays below `MAX_CONFLICTS`, the context is
stopped (`OFF`) with callbacks `DECLINE` then `RESTART_CLIENT`, in that
order. -/
theorem acd_probe_phase_conflict (acd : Acd) (netifaddr : EthAddr) (hdr : EtharpHdr)
    (hs : acd.state = AcdState.PROBE_WAIT ∨ acd.state = AcdState.PROBING ∨
          acd.state = AcdState.ANNOUNCE_WAIT) :
    ((acd_arp_reply_ctx netifaddr hdr acd).2 ≠ [] ↔
      ((hdr.sipaddr = acd.ipaddr ∧ hdr.shwaddr ≠ netifaddr) ∨
       (hdr.sipaddr = 0 ∧ hdr.dipaddr = acd.ipaddr ∧ hdr.shwaddr ≠ netifaddr))) ∧
    (acd_probe_conflict netifaddr hdr acd →
      (acd_arp_reply_ctx netifaddr hdr acd).1.num_conflicts = acd.num_conflicts + 1 ∧
      (acd.num_conflicts + 1 < MAX_CONFLICTS →
        acd_arp_reply_ctx netifaddr hdr acd =
          ({ acd with state := AcdState.OFF, num_conflicts := acd.num_conflicts + 1 },
           [AcdEvent.diagMac hdr.shwaddr, AcdEvent.diagRaw hdr,
            AcdEvent.callback AcdCallbackEnum.DECLINE,
            AcdEvent.callback AcdCallbackEnum.RESTART_CLIENT]))) := by
  have hciff := acd_probe_conflict_iff netifaddr hdr acd
  constructor
  · have he : (acd_arp_reply_ctx netifaddr hdr acd).2 ≠ [] ↔
        acd_probe_conflict netifaddr hdr acd := by
      rcases hs with h | h | h <;> by_cases hc : acd_probe_conflict netifaddr hdr acd <;>
        simp [acd_arp_reply_ctx, h, hc]
    exact he.trans hciff
  · intro hc
    have hr : acd_arp_reply_ctx netifaddr hdr acd =
        ((acd_restart acd).1,
         AcdEvent.diagMac hdr.shwaddr :: AcdEvent.diagRaw hdr :: (acd_restart acd).2) := by
      rcases hs with h | h | h <;> simp [acd_arp_reply_ctx, h, hc]
    rw [hr]
    constructor
    · simp only [acd_restart]
      split <;> simp
    · intro hlt
      have hmax : ¬MAX_CONFLICTS ≤ acd.num_conflicts + 1 := by omega
      simp [acd_restart, hmax]


/-- C2 witness: a foreign probe reply against a `PROBING` context. -/
theorem acd_probe_phase_conflict_witness :
    acd_arp_reply_ctx ⟨0, 0, 0, 0, 0, 0⟩
        ⟨⟨1, 2, 3, 4, 5, 6⟩, ⟨0, 0, 0, 0, 0, 0⟩, 5, 5⟩
        ⟨AcdState.PROBING, 5, 0, 0, 0, 0⟩ =
      (⟨AcdState.OFF, 5, 0, 0, 0, 1⟩,
       [AcdEvent.diagMac ⟨1, 2, 3, 4, 5, 6⟩,
        AcdEvent.diagRaw ⟨⟨1, 2, 3, 4, 5, 6⟩, ⟨0, 0, 0, 0, 0, 0⟩, 5, 5⟩,
        AcdEvent.callback AcdCallbackEnum.DECLINE,
        AcdEvent.callback AcdCallbackEnum.RESTART_CLIENT]) :=
  ((acd_probe_phase_conflict ⟨AcdState.PROBING, 5, 0, 0, 0, 0⟩ ⟨0, 0, 0, 0, 0, 0⟩
      ⟨⟨1, 2, 3, 4, 5, 6⟩, ⟨0, 0, 0, 0, 0, 0⟩, 5, 5⟩
      (Or.inr (Or.inl rfl))).2 (by decide)).2 (by decide)

/-- C3: a conflicting ARP frame (sender IP = candidate, foreign sender
MAC) against `ANNOUNCING`/`ONGOING` with `lastconflict = 0` is answered
by exactly one gratuitous announce, arming `lastconflict` with the
defend-interval tick count and leaving the state (and everything else)
unchanged; with `lastconflict` still positive it performs the restart
sequence instead (counter incremented, `DECLINE`, then either
`OFF`+`RESTART_CLIENT` or `RATE_LIMIT`); in `PASSIVE_ONGOING` the context
goes straight to `OFF` with a single `DECLINE` and no announce. -/
theorem acd_ongoing_phase_conflict (acd : Acd) (netifaddr : EthAddr) (hdr : EtharpHdr)
    (hc : hdr.sipaddr = acd.ipaddr ∧ ¬netifaddr = hdr.shwaddr) :
    ((acd.state = AcdState.ANNOUNCING ∨ acd.state = AcdState.ONGOING) →
      acd.lastconflict = 0 →
      acd_arp_reply_ctx netifaddr hdr acd =
        ({ acd with lastconflict := DEFEND_INTERVAL * ACD_TICKS_PER_SECOND },
         [AcdEvent.diagMac hdr.shwaddr, AcdEvent.diagRaw hdr,
          AcdEvent.sendAnnounce acd.ipaddr])) ∧
    ((acd.state = AcdState.ANNOUNCING ∨ acd.state = AcdState.ONGOING) →
      0 < acd.lastconflict →
      (acd_arp_reply_ctx netifaddr hdr acd).1.num_conflicts = acd.num_conflicts + 1 ∧
      (((acd_arp_reply_ctx netifaddr hdr acd).1.state = AcdState.OFF ∧
        (acd_arp_reply_ctx netifaddr hdr acd).2 =
          [AcdEvent.diagMac hdr.shwaddr, AcdEvent.diagRaw hdr,
           AcdEvent.callback AcdCallbackEnum.DECLINE,
           AcdEvent.callback AcdCallbackEnum.RESTART_CLIENT]) ∨
       ((acd_arp_reply_ctx netifaddr hdr acd).1.state = AcdState.RATE_LIMIT ∧
        (acd_arp_reply_ctx netifaddr hdr acd).2 =
          [AcdEvent.diagMac hdr.shwaddr, AcdEvent.diagRaw hdr,
           AcdEvent.callback AcdCallbackEnum.DECLINE]))) ∧
    (acd.state = AcdState.PASSIVE_ONGOING →
      acd_arp_reply_ctx netifaddr hdr acd =
        ({ acd with state := AcdState.OFF },
         [AcdEvent.diagMac hdr.shwaddr, AcdEvent.diagRaw hdr,
          AcdEvent.callback AcdCallbackEnum.DECLINE])) := by
  have hcc : acd_ongoing_conflict netifaddr hdr acd := hc
  refine ⟨?_, ?_, ?_⟩
  · rintro (h | h) hlc <;>
      simp [acd_arp_reply_ctx, h, hcc, acd_handle_arp_conflict, hlc]
  · rintro (h | h) hlc <;>
      · have hlc0 : ¬acd.state = AcdState.PASSIVE_ONGOING := by simp [h]
        by_cases hm : MAX_CONFLICTS ≤ acd.num_conflicts + 1 <;>
          simp [acd_arp_reply_ctx, h, hcc, acd_handle_arp_conflict, hlc, hlc0,
            acd_restart, hm, Nat.pos_iff_ne_zero]
  · intro h
    simp [acd_arp_reply_ctx, h, hcc, acd_handle_arp_conflict]

/-- C3 witness: a first conflict against an `ONGOING` context with clear
cooldown defends with one announce and arms the 100-tick cooldown. -/
theorem acd_ongoing_phase_conflict_witness :
    acd_arp_reply_ctx ⟨0, 0, 0, 0, 0, 0⟩
        ⟨⟨1, 2, 3, 4, 5, 6⟩, ⟨0, 0, 0, 0, 0, 0⟩, 5, 0⟩
        ⟨AcdState.ONGOING, 5, 0, 0, 0, 0⟩ =
      (⟨AcdState.ONGOING, 5, 0, 0, 100, 0⟩,
       [AcdEvent.diagMac ⟨1, 2, 3, 4, 5, 6⟩,
        AcdEvent.diagRaw ⟨⟨1, 2, 3, 4, 5, 6⟩, ⟨0, 0, 0, 0, 0, 0⟩, 5, 0⟩,
        AcdEvent.sendAnnounce 5]) :=
  (acd_ongoing_phase_conflict ⟨AcdState.ONGOING, 5, 0, 0, 0, 0⟩ ⟨0, 0, 0, 0, 0, 0⟩
      ⟨⟨1, 2, 3, 4, 5, 6⟩, ⟨0, 0, 0, 0, 0, 0⟩, 5, 0⟩
      (by decide)).1 (Or.inr rfl) rfl

/-! ### C4: rate limiting -/

/-- Firing the `RATE_LIMIT` expiry from at most one remaining tick: the
context is stopped and `RESTART_CLIENT` is delivered, for every value of
the conflict cooldown. -/
theorem acd_step_rate_limit (rnd : Nat → Nat) (ip t sn lc nc : Nat) (ht : t ≤ 1) :
    acd_tmr_step rnd ⟨AcdState.RATE_LIMIT, ip, t, sn, lc, nc⟩ =
      (⟨AcdState.OFF, ip, 0, sn, lc - 1, nc⟩,
       [AcdEvent.callback AcdCallbackEnum.RESTART_CLIENT]) := by
  have ht01 : t = 0 ∨ t = 1 := by omega
  rcases ht01 with h | h <;> subst h <;> by_cases hlc : 0 < lc <;>
    simp [acd_tmr_step, hlc] <;> omega

/-- C4: for every context — whatever its state and conflict cooldown —
when a conflict-triggered restart raises the conflict counter to
`MAX_CONFLICTS` or more, the context enters `RATE_LIMIT` with `ttw` set to
the rate-limit-interval tick count; during the whole countdown no
`RESTART_CLIENT` is delivered and the state stays `RATE_LIMIT`, and on the
tick the countdown expires the context goes to `OFF` and `RESTART_CLIENT`
is delivered exactly once. -/
theorem acd_rate_limit_restart (rnd : Nat → Nat) (acd : Acd)
    (hc : MAX_CONFLICTS ≤ acd.num_conflicts + 1) :
    (acd_restart acd).1.state = AcdState.RATE_LIMIT ∧
    (acd_restart acd).1.ttw = RATE_LIMIT_INTERVAL * ACD_TICKS_PER_SECOND ∧
    (acd_restart acd).2 = [AcdEvent.callback AcdCallbackEnum.DECLINE] ∧
    (∀ k, k < RATE_LIMIT_INTERVAL * ACD_TICKS_PER_SECOND →
      countRestartCb (acd_tmr_iter rnd (acd_restart acd).1 k).2 = 0 ∧
      (acd_tmr_iter rnd (acd_restart acd).1 k).1.state = AcdState.RATE_LIMIT) ∧
    (acd_tmr_iter rnd (acd_restart acd).1
        (RATE_LIMIT_INTERVAL * ACD_TICKS_PER_SECOND)).1.state = AcdState.OFF ∧
    countRestartCb (acd_tmr_iter rnd (acd_restart acd).1
        (RATE_LIMIT_INTERVAL * ACD_TICKS_PER_SECOND)).2 = 1 := by
  obtain ⟨st, ip, t, sn, lc, nc⟩ := acd
  simp only [Acd.num_conflicts] at hc
  have hrestart : acd_restart ⟨st, ip, t, sn, lc, nc⟩ =
      ((⟨AcdState.RATE_LIMIT, ip, 600, sn, lc, nc + 1⟩ : Acd),
       [AcdEvent.callback AcdCallbackEnum.DECLINE]) := by
    simp [acd_restart, hc, RATE_LIMIT_INTERVAL, ACD_TICKS_PER_SECOND, ACD_TMR_INTERVAL]
  rw [hrestart]
  have hval : RATE_LIMIT_INTERVAL * ACD_TICKS_PER_SECOND = 600 := by
    simp [RATE_LIMIT_INTERVAL, ACD_TICKS_PER_SECOND, ACD_TMR_INTERVAL]
  rw [hval]
  have hcd : acd_tmr_iter rnd (⟨AcdState.RATE_LIMIT, ip, 600, sn, lc, nc + 1⟩ : Acd) 599 =
      ((⟨AcdState.RATE_LIMIT, ip, 1, sn, lc - 599, nc + 1⟩ : Acd), []) := by
    have h := acd_tmr_iter_countdown_cooldown rnd 599
      (⟨AcdState.RATE_LIMIT, ip, 600, sn, lc, nc + 1⟩ : Acd) (by simp)
    simpa using h
  have hfin : acd_tmr_iter rnd (⟨AcdState.RATE_LIMIT, ip, 600, sn, lc, nc + 1⟩ : Acd) 600 =
      ((⟨AcdState.OFF, ip, 0, sn, lc - 600, nc + 1⟩ : Acd),
       [AcdEvent.callback AcdCallbackEnum.RESTART_CLIENT]) := by
    rw [show (600 : Nat) = 599 + 1 from rfl, acd_tmr_iter_add rnd _ 599 1, hcd]
    simp only [acd_tmr_iter]
    rw [acd_step_rate_limit rnd ip 1 sn (lc - 599) (nc + 1) (by norm_num)]
    simp
    omega
  refine ⟨rfl, rfl, rfl, ?_, ?_, ?_⟩
  · intro k hk
    rw [acd_tmr_iter_countdown_cooldown rnd k
      (⟨AcdState.RATE_LIMIT, ip, 600, sn, lc, nc + 1⟩ : Acd) (by simpa using hk)]
    simp [countRestartCb]
  · rw [hfin]
  · rw [hfin]
    simp [countRestartCb, isRestartCb]

/-- C4 witness: a tenth conflict, here hitting an `ONGOING` context still
inside its defend window (`lastconflict = 42`), rate-limits. -/
theorem acd_rate_limit_restart_witness :
    (acd_restart ⟨AcdState.ONGOING, 5, 7, 0, 42, 9⟩).1.state = AcdState.RATE_LIMIT :=
  (acd_rate_limit_restart (fun _ => 0) ⟨AcdState.ONGOING, 5, 7, 0, 42, 9⟩ (by decide)).1

/-! ### C5: address-role demotion -/

/-- C5 (amended): when the address-changed entry point reports a change
from a link-local old address to a non-link-local new address (both
non-ANY), a matching context in `ANNOUNCING`/`ONGOING` is demoted to
`PASSIVE_ONGOING`, a matching context in `PROBE_WAIT`/`PROBING`/
`ANNOUNCE_WAIT` is stopped (`OFF`) with callback `DECLINE`, and a demoted
context answers a subsequent conflict with an immediate `DECLINE` and no
announce.  (The claim as stated, for arbitrary address changes, is
refuted by `acd_addr_changed_cex`: the code acts only on a
link-local-to-routable change.) -/
theorem acd_addr_changed_demotion (oldAddr newAddr : Nat) (acd : Acd)
    (ho : ¬oldAddr = 0) (hn : ¬newAddr = 0)
    (hll : ip4_addr_islinklocal oldAddr) (hnl : ¬ip4_addr_islinklocal newAddr)
    (hm : acd.ipaddr = oldAddr) :
    ((acd.state = AcdState.ANNOUNCING ∨ acd.state = AcdState.ONGOING) →
      acd_netif_ip_addr_changed_ctx oldAddr newAddr acd =
        ({ acd with state := AcdState.PASSIVE_ONGOING }, [])) ∧
    ((acd.state = AcdState.PROBE_WAIT ∨ acd.state = AcdState.PROBING ∨
      acd.state = AcdState.ANNOUNCE_WAIT) →
      acd_netif_ip_addr_changed_ctx oldAddr newAddr acd =
        ({ acd with state := AcdState.OFF },
         [AcdEvent.callback AcdCallbackEnum.DECLINE])) ∧
    (∀ (netifaddr : EthAddr) (hdr : EtharpHdr),
      hdr.sipaddr = acd.ipaddr → ¬netifaddr = hdr.shwaddr →
      (acd.state = AcdState.ANNOUNCING ∨ acd.state = AcdState.ONGOING) →
      acd_arp_reply_ctx netifaddr hdr (acd_netif_ip_addr_changed_ctx oldAddr newAddr acd).1 =
        ({ acd with state := AcdState.OFF },
         [AcdEvent.diagMac hdr.shwaddr, AcdEvent.diagRaw hdr,
          AcdEvent.callback AcdCallbackEnum.DECLINE])) := by
  obtain ⟨st, aip, t, sn, lc, nc⟩ := acd
  simp only [Acd.ipaddr] at hm
  subst hm
  have hor : ¬(aip = 0 ∨ newAddr = 0) := by simp [ho, hn]
  refine ⟨?_, ?_, ?_⟩
  · rintro (h | h) <;> simp only [Acd.state] at h <;> subst h <;>
      simp [acd_netif_ip_addr_changed_ctx, hor, hll, hnl, acd_put_in_passive_mode]
  · rintro (h | h | h) <;> simp only [Acd.state] at h <;> subst h <;>
      simp [acd_netif_ip_addr_changed_ctx, hor, hll, hnl, acd_put_in_passive_mode]
  · intro netifaddr hdr h1 h2 h3
    have hdem : acd_netif_ip_addr_changed_ctx aip newAddr ⟨st, aip, t, sn, lc, nc⟩ =
        ((⟨AcdState.PASSIVE_ONGOING, aip, t, sn, lc, nc⟩ : Acd), []) := by
      rcases h3 with h | h <;> simp only [Acd.state] at h <;> subst h <;>
        simp [acd_netif_ip_addr_changed_ctx, hor, hll, hnl, acd_put_in_passive_mode]
    rw [hdem]
    simp only [Acd.ipaddr] at h1
    have hcc : acd_ongoing_conflict netifaddr hdr
        (⟨AcdState.PASSIVE_ONGOING, aip, t, sn, lc, nc⟩ : Acd) := ⟨h1, h2⟩
    simp [acd_arp_reply_ctx, hcc, acd_handle_arp_conflict]

/-- C5 witness: demoting an `ONGOING` context on a 169.254.1.1 to
192.168.1.1 change. -/
theorem acd_addr_changed_demotion_witness :
    acd_netif_ip_addr_changed_ctx 0xA9FE0101 0xC0A80101
        ⟨AcdState.ONGOING, 0xA9FE0101, 0, 0, 0, 0⟩ =
      (⟨AcdState.PASSIVE_ONGOING, 0xA9FE0101, 0, 0, 0, 0⟩, []) :=
  (acd_addr_changed_demotion 0xA9FE0101 0xC0A80101
      ⟨AcdState.ONGOING, 0xA9FE0101, 0, 0, 0, 0⟩
      (by decide) (by decide) (by decide) (by decide) rfl).1 (Or.inr rfl)

/-- C5 counterexample: an address change whose old address is routable
(192.168.1.50 to 10.0.0.1) leaves a matching `ONGOING` context exactly
where it was — it is not demoted to `PASSIVE_ONGOING` as the claim, read
over every address change, requires. -/
theorem acd_addr_changed_cex :
    (acd_netif_ip_addr_changed_ctx 0xC0A80132 0x0A000001
        ⟨AcdState.ONGOING, 0xC0A80132, 0, 0, 0, 0⟩).1.state = AcdState.ONGOING ∧
    ¬(acd_netif_ip_addr_changed_ctx 0xC0A80132 0x0A000001
        ⟨AcdState.ONGOING, 0xC0A80132, 0, 0, 0, 0⟩).1.state = AcdState.PASSIVE_ONGOING := by
  decide

/-! ### C6: invalid API usage -/

/-- C6 (amended): registering a context already on the interface list
returns `ERR_OK` (the success code, not an error) and leaves the registry
list unchanged; the one mutation it performs is on the given context
itself, whose stored conflict callback is overwritten with the newly
supplied one (the assignment of acd.c line 253 runs before the duplicate
check), while every other context's stored callback is untouched;
stopping a context never consults the registry: it returns `ERR_OK` and
only forces that context to `OFF` (with a guard making a NULL context a
no-op). -/
theorem acd_invalid_api_usage (l : List Nat) (cbs : Nat → Nat) (x cb : Nat)
    (hx : x ∈ l) (acd : Acd) :
    (acd_add l cbs x cb).1 = ERR_OK ∧
    (acd_add l cbs x cb).2.1 = l ∧
    (acd_add l cbs x cb).2.2 x = cb ∧
    (∀ y, ¬y = x → (acd_add l cbs x cb).2.2 y = cbs y) ∧
    acd_stop (some acd) = (ERR_OK, some { acd with state := AcdState.OFF }) ∧
    acd_stop (none : Option Acd) = (ERR_OK, none) := by
  refine ⟨?_, ?_, ?_, ?_, rfl, rfl⟩
  · simp [acd_add, hx]
  · simp [acd_add, hx]
  · simp [acd_add, hx]
  · intro y hy
    simp [acd_add, hx, hy]

/-- C6 witness: duplicate registration of context 7 on the list `[7]`
returns success and leaves the list as it was. -/
theorem acd_invalid_api_usage_witness :
    (acd_add [7] (fun _ => 1) 7 42).2.1 = [7] :=
  (acd_invalid_api_usage [7] (fun _ => 1) 7 42 (by decide)
    ⟨AcdState.OFF, 0, 0, 0, 0, 0⟩).2.1

/-- C6 counterexample: the claim says duplicate registration and stop on
an unregistered context return an error result and leave all existing
contexts unchanged; in fact both return `ERR_OK = 0`, the success value
(lwIP error codes are negative), and the duplicate registration
overwrites the registered context's stored callback (here from 1 to 42). -/
theorem acd_invalid_api_cex :
    (acd_add [7] (fun _ => 1) 7 42).1 = ERR_OK ∧ ERR_OK = 0 ∧
    (acd_add [7] (fun _ => 1) 7 42).2.1 = [7] ∧
    (acd_add [7] (fun _ => 1) 7 42).2.2 7 = 42 ∧
    ¬(acd_add [7] (fun _ => 1) 7 42).2.2 7 = 1 ∧
    acd_stop (some ⟨AcdState.PROBING, 5, 3, 1, 0, 2⟩) =
      (ERR_OK, some ⟨AcdState.OFF, 5, 3, 1, 0, 2⟩) := by
  refine ⟨by decide, rfl, by decide, by decide, by decide, rfl⟩

/-! ### C7: countdown safety -/

/-- C7: on every tick `lastconflict` moves to `lastconflict - 1` in
truncated (clamped-at-0) arithmetic — i.e. it is decremented only while
nonzero — and whenever more than one tick remains on `ttw` the whole step
is the pure decrement of both counters with no reload and no outbound
action, so `ttw` is strictly decreasing, never reloaded and never wrapped
between transition points. -/
theorem acd_ttw_no_underflow (rnd : Nat → Nat) (acd : Acd) :
    (acd_tmr_step rnd acd).1.lastconflict = acd.lastconflict - 1 ∧
    (1 < acd.ttw → acd_tmr_step rnd acd =
      ({ acd with ttw := acd.ttw - 1, lastconflict := acd.lastconflict - 1 }, [])) := by
  refine ⟨?_, fun ht => acd_tmr_step_decrement rnd acd ht⟩
  obtain ⟨st, ip, t, sn, lc, nc⟩ := acd
  by_cases hlc : 0 < lc <;> by_cases ht : 0 < t <;>
    cases st <;> simp [acd_tmr_step, hlc, ht] <;>
      first
        | omega
        | (split_ifs <;> (try simp) <;> omega)

/-- C7 witness: a mid-countdown `PROBING` tick is a pure decrement. -/
theorem acd_ttw_no_underflow_witness :
    acd_tmr_step (fun _ => 0) ⟨AcdState.PROBING, 1, 5, 0, 3, 0⟩ =
      (⟨AcdState.PROBING, 1, 4, 0, 2, 0⟩, []) :=
  (acd_ttw_no_underflow (fun _ => 0) ⟨AcdState.PROBING, 1, 5, 0, 3, 0⟩).2 (by decide)

/-! ### C8: diagnostic capture ordering -/

/-- C8: whenever an inbound ARP frame is classified as a conflict — in
any state — the event trace of that `acd_arp_reply` iteration starts with
the diagnostic capture of the sender MAC followed by the raw frame, so no
callback (and no effect observable through one) precedes the diagnostic
sink calls. -/
theorem acd_diag_before_actions (acd : Acd) (netifaddr : EthAddr) (hdr : EtharpHdr)
    (hc : acd_is_conflict netifaddr hdr acd) :
    ∃ rest, (acd_arp_reply_ctx netifaddr hdr acd).2 =
      AcdEvent.diagMac hdr.shwaddr :: AcdEvent.diagRaw hdr :: rest := by
  obtain ⟨st, ip, t, sn, lc, nc⟩ := acd
  cases st <;> simp [acd_is_conflict] at hc <;>
    simp [acd_arp_reply_ctx, hc]

/-- C8 witness: a third-party probe conflict against `ANNOUNCE_WAIT` has
the diagnostic captures as the first two trace entries. -/
theorem acd_diag_before_actions_witness :
    ∃ rest, (acd_arp_reply_ctx ⟨0, 0, 0, 0, 0, 0⟩
        ⟨⟨1, 2, 3, 4, 5, 6⟩, ⟨0, 0, 0, 0, 0, 0⟩, 0, 5⟩
        ⟨AcdState.ANNOUNCE_WAIT, 5, 0, 0, 0, 0⟩).2 =
      AcdEvent.diagMac ⟨1, 2, 3, 4, 5, 6⟩ ::
        AcdEvent.diagRaw ⟨⟨1, 2, 3, 4, 5, 6⟩, ⟨0, 0, 0, 0, 0, 0⟩, 0, 5⟩ :: rest :=
  acd_diag_before_actions ⟨AcdState.ANNOUNCE_WAIT, 5, 0, 0, 0, 0⟩ ⟨0, 0, 0, 0, 0, 0⟩
    ⟨⟨1, 2, 3, 4, 5, 6⟩, ⟨0, 0, 0, 0, 0, 0⟩, 0, 5⟩ (by decide)

/-! ### C9: jitter safety and determinism -/

/-- C9: every modulus taken by the pseudo-random wait computations has a
strictly positive divisor in every configuration (both the custom-timing
macros, where a zero-tick probe wait falls back to divisor 1 and the
probe interval only divides when max exceeds min, and the default RFC
macros); a configured `probe_wait` of 0 ms yields wait 0 directly; and
the wait drawn by `acd_start` (and the probe-interval jitter) is a
deterministic function of the interface hardware address and the
context's `sent_num` alone. -/
theorem acd_random_wait_safety (interval probeWaitMs probeMinMs probeMaxMs r : Nat) :
    0 < opener_probe_wait_divisor interval probeWaitMs ∧
    (OPENER_ACD_MS_TO_TICKS interval probeMinMs < OPENER_ACD_MS_TO_TICKS interval probeMaxMs →
      0 < opener_probe_interval_divisor interval probeMinMs probeMaxMs) ∧
    (probeWaitMs = 0 → OPENER_ACD_RANDOM_PROBE_WAIT interval probeWaitMs r = 0) ∧
    0 < PROBE_WAIT * ACD_TICKS_PER_SECOND ∧
    0 < (PROBE_MAX - PROBE_MIN) * ACD_TICKS_PER_SECOND ∧
    (∀ (hw : EthAddr) (a b : Acd) (ip : Nat),
      (acd_start (LWIP_ACD_RAND hw) a ip).ttw = (acd_start (LWIP_ACD_RAND hw) b ip).ttw) ∧
    (∀ (hw : EthAddr) (a b : Acd), a.sent_num = b.sent_num →
      ACD_RANDOM_PROBE_INTERVAL (LWIP_ACD_RAND hw) a.sent_num =
        ACD_RANDOM_PROBE_INTERVAL (LWIP_ACD_RAND hw) b.sent_num) := by
  refine ⟨?_, ?_, ?_, ?_, ?_, ?_, ?_⟩
  · unfold opener_probe_wait_divisor
    split <;> omega
  · intro h
    unfold opener_probe_interval_divisor
    omega
  · intro h
    simp [OPENER_ACD_RANDOM_PROBE_WAIT, h]
  · decide
  · decide
  · intro hw a b ip
    rw [acd_start_eq, acd_start_eq]
  · intro hw a b h
    rw [h]

/-- C9 witness: with a 100 ms tick and `probe_wait_ms = 0` the initial
wait is 0, with no division by zero. -/
theorem acd_random_wait_safety_witness :
    OPENER_ACD_RANDOM_PROBE_WAIT 100 0 5 = 0 :=
  (acd_random_wait_safety 100 0 1000 2000 5).2.2.1 rfl

/-! ### C10: frame effect of acd_start -/

/-- C10: `acd_start` mutates only `sent_num` (to 0), `lastconflict` (to
0), the candidate address, the state (to `PROBE_WAIT`) and `ttw`; it
leaves `num_conflicts` unchanged, `acd_restart` increments it, a tick
changes it only by resetting it to 0 while entering `ANNOUNCING`, and an
ARP-reply iteration either preserves or increments it — so conflicts
accumulate across start/restart cycles and are cleared only on entering
`ANNOUNCING`. -/
theorem acd_start_frame_effect (rnd : Nat → Nat) (acd : Acd) (ip : Nat) :
    (∃ w, acd_start rnd acd ip =
      { acd with sent_num := 0, lastconflict := 0, ipaddr := ip,
                 state := AcdState.PROBE_WAIT, ttw := w }) ∧
    (acd_start rnd acd ip).num_conflicts = acd.num_conflicts ∧
    (acd_restart acd).1.num_conflicts = acd.num_conflicts + 1 ∧
    ((acd_tmr_step rnd acd).1.num_conflicts = acd.num_conflicts ∨
      ((acd_tmr_step rnd acd).1.num_conflicts = 0 ∧
       (acd_tmr_step rnd acd).1.state = AcdState.ANNOUNCING)) ∧
    (∀ (netifaddr : EthAddr) (hdr : EtharpHdr),
      (acd_arp_reply_ctx netifaddr hdr acd).1.num_conflicts = acd.num_conflicts ∨
      (acd_arp_reply_ctx netifaddr hdr acd).1.num_conflicts = acd.num_conflicts + 1) := by
  obtain ⟨st, aip, t, sn, lc, nc⟩ := acd
  refine ⟨⟨rnd 0 % 10, by rw [acd_start_eq]⟩, by rw [acd_start_eq], ?_, ?_, ?_⟩
  · simp only [acd_restart]
    split <;> simp
  · by_cases hlc : 0 < lc <;> by_cases ht : 0 < t <;>
      cases st <;> simp [acd_tmr_step, hlc, ht, ANNOUNCE_NUM, PROBE_NUM] <;>
        split_ifs <;> simp_all
  · intro netifaddr hdr
    cases st <;>
      simp [acd_arp_reply_ctx] <;> split_ifs <;>
        simp [acd_restart, acd_handle_arp_conflict] <;> split_ifs <;> simp

/-- C10 witness: `acd_restart` bumps the conflict counter of a concrete
context. -/
theorem acd_start_frame_effect_witness :
    (acd_restart ⟨AcdState.PROBING, 5, 0, 0, 0, 0⟩).1.num_conflicts = 0 + 1 :=
  (acd_start_frame_effect (fun _ => 0) ⟨AcdState.PROBING, 5, 0, 0, 0, 0⟩ 5).2.2.1

/-- C1 witness: the amended liveness theorem applied at the all-zero
jitter oracle and candidate 192.168.1.50. -/
theorem acd_liveness_amended_witness :
    ∃ T, 61 ≤ T ∧ T ≤ 110 ∧
      (acd_tmr_iter (fun _ => 0)
        (acd_start (fun _ => 0) ⟨AcdState.OFF, 0, 0, 0, 0, 0⟩ 3232235826) T).1.state =
          AcdState.ONGOING ∧
      countIpOk (acd_tmr_iter (fun _ => 0)
        (acd_start (fun _ => 0) ⟨AcdState.OFF, 0, 0, 0, 0, 0⟩ 3232235826) T).2 = 1 ∧
      (∀ k, k < T → countIpOk (acd_tmr_iter (fun _ => 0)
        (acd_start (fun _ => 0) ⟨AcdState.OFF, 0, 0, 0, 0, 0⟩ 3232235826) k).2 = 0) ∧
      (∀ n, countIpOk (acd_tmr_iter (fun _ => 0)
        (acd_start (fun _ => 0) ⟨AcdState.OFF, 0, 0, 0, 0, 0⟩ 3232235826) (T + n)).2 = 1) :=
  acd_liveness_amended (fun _ => 0) ⟨AcdState.OFF, 0, 0, 0, 0, 0⟩ 3232235826
